import Mathlib

/-!
Shallow embedding of the identity-reconciliation core of the `template`
repository: the error taxonomy and status mapping (`http/http.go`), the
entity mapper and transaction wrapper (`pg/pg.go`), the identity store
lookups (`pg/user.go`, `pg/auth.go`) and the reconciliation procedure
`CreateAuth` (`pg/auth.go`).

The persisted store is modelled as in-memory lists of rows with a positive
id generator (`nextId`); machine time is modelled as natural-number
nanosecond readings, with the ambient `time.Now()` clock given as a list of
successive readings consumed in call order.  Fallible underlying database
statements (SELECT scans, PrepareNamed, statement execution) are modelled
by explicit fault parameters so that every error path of the Go code is
reachable; all-`none`/`false` faults give the ordinary semantics.
-/

namespace Template

/-- Application errors: `app` embeds `template.Error{Code, Message}`, `db`
an unclassified error from the database driver, and `wrap` embeds
`fmt.Errorf("label: %w", cause)`. -/
inductive AppErr where
  | app (code : String) (message : String)
  | db (message : String)
  | wrap (label : String) (cause : AppErr)
deriving Repr, DecidableEq

/-- Modelled from the spec: the error-kind constants (`template.ECONFLICT`
etc.) are declared in a repository file that is not under `src/`; spec
section 4.5 fixes the closed set of kinds as conflict, invalid-input,
not-found, not-implemented, unauthorized and internal. -/
def ECONFLICT : String := "conflict"

/-- Modelled from the spec: the invalid-input error kind. -/
def EINVALID : String := "invalid-input"

/-- Modelled from the spec: the not-found error kind. -/
def ENOTFOUND : String := "not-found"

/-- Modelled from the spec: the not-implemented error kind. -/
def ENOTIMPLEMENTED : String := "not-implemented"

/-- Modelled from the spec: the unauthorized error kind. -/
def EUNAUTHORIZED : String := "unauthorized"

/-- Modelled from the spec: the internal error kind. -/
def EINTERNAL : String := "internal"

/-- Modelled from the spec: `template.ErrorCode` is declared in a
repository file not under `src/`.  Spec sections 4.5 and 7: a classified
error carries its kind, a wrapped error is "propagated unchanged in kind",
and any error not constructed with a recognized kind is treated as
internal. -/
def ErrorCode : AppErr → String
  | .app code _ => code
  | .db _ => EINTERNAL
  | .wrap _ cause => ErrorCode cause

/-- The error-kind to HTTP status lookup table (`http/http.go`, `codes`). -/
def codes : List (String × Nat) :=
  [(ECONFLICT, 409), (EINVALID, 400), (ENOTFOUND, 404),
   (ENOTIMPLEMENTED, 501), (EUNAUTHORIZED, 401), (EINTERNAL, 500)]

/-- `ErrorStatusCode` (`http/http.go`): map lookup with default 500. -/
def ErrorStatusCode (code : String) : Nat :=
  match codes.find? (fun p => p.1 == code) with
  | some p => p.2
  | none => 500

/-- A persisted row of the `users` table. -/
structure UserRow where
  id : Nat
  name : String
  email : String
  createdAt : Nat
  updatedAt : Nat
deriving Repr, DecidableEq

/-- A persisted row of the `auths` table. -/
structure AuthRow where
  id : Nat
  userId : Nat
  source : String
  sourceId : String
  accessToken : String
  refreshToken : String
  expiry : Option Nat
  createdAt : Nat
  updatedAt : Nat
deriving Repr, DecidableEq

/-- The visible database state: rows in return order plus the id
generator of the serial primary-key columns (always positive). -/
structure Store where
  users : List UserRow
  auths : List AuthRow
  nextId : Nat
deriving Repr, DecidableEq

/-- The in-memory `template.User` entity: its persisted columns plus the
non-persisted `Auths` collection (`db:"-"`). -/
structure UserEnt where
  row : UserRow
  auths : List AuthRow
deriving Repr, DecidableEq

/-- The in-memory `template.Auth` entity: its persisted columns plus the
non-persisted `User` reference (`db:"-"`). -/
structure AuthEnt where
  id : Nat
  userId : Nat
  user : Option UserEnt
  source : String
  sourceId : String
  accessToken : String
  refreshToken : String
  expiry : Option Nat
  createdAt : Nat
  updatedAt : Nat
deriving Repr, DecidableEq

/-- `Tx` (`pg/pg.go`): the transaction wrapper, holding the uncommitted
transaction-local state and the fixed timestamp captured at `beginTx`. -/
structure Tx where
  pending : Store
  now : Nat
deriving Repr, DecidableEq

/-- The timestamp captured once by `beginTx` (`pg/pg.go` line 77):
`db.Now().UTC().Truncate(time.Second)`.  `UTC()` does not change the
instant; `Truncate(time.Second)` rounds nanoseconds down to a whole
second. -/
def beginTxNow (dbNow : Nat) : Nat := dbNow - dbNow % 1000000000

/-- One `time.Now()` reading from the ambient clock: consume the next
queued reading. -/
def nextTime : List Nat → Nat × List Nat
  | [] => (0, [])
  | t :: ts => (t, ts)

/-- `findUserByEmail` (`pg/user.go`): scan `users` for the first row with
exactly this email; the driver's no-rows error becomes ENOTFOUND; `fault`
injects a failure of the underlying SELECT, returned as-is. -/
def findUserByEmail (fault : Option String) (users : List UserRow) (email : String) :
    Except AppErr UserRow :=
  match fault with
  | some m => .error (.db m)
  | none =>
    match users.find? (fun u => u.email == email) with
    | some u => .ok u
    | none => .error (.app ENOTFOUND "User not found.")

/-- `attachUserAuths` (`pg/user.go`): load every auth row whose `user_id`
matches and assign them, in database return order. -/
def attachUserAuths (auths : List AuthRow) (u : UserRow) : UserEnt :=
  { row := u, auths := auths.filter (fun a => a.userId == u.id) }

/-- `findUserByID` (`pg/user.go`): scan `users` by id, no-rows becomes
ENOTFOUND, then attach the user's auth rows. -/
def findUserByID (s : Store) (id : Nat) : Except AppErr UserEnt :=
  match s.users.find? (fun u => u.id == id) with
  | some u => .ok (attachUserAuths s.auths u)
  | none => .error (.app ENOTFOUND "User not found.")

/-- `findAuthBySourceID` (`pg/auth.go`): scan `auths` for the first row
matching both `source` and `source_id`; no-rows becomes ENOTFOUND; `fault`
injects a failure of the underlying SELECT, returned as-is. -/
def findAuthBySourceID (fault : Option String) (auths : List AuthRow)
    (source sourceId : String) : Except AppErr AuthRow :=
  match fault with
  | some m => .error (.db m)
  | none =>
    match auths.find? (fun a => a.source == source && a.sourceId == sourceId) with
    | some a => .ok a
    | none => .error (.app ENOTFOUND "Auth not found.")

/-- A field value for the generic entity mapper: a timestamp, a string or
an integer column value. -/
inductive FVal where
  | timeV (t : Nat)
  | strV (s : String)
  | intV (n : Int)
deriving Repr, DecidableEq

/-- One struct field as seen by the reflective mapper (`pg/pg.go`): its Go
field name, its `db` tag when present, and its value. -/
structure RecField where
  name : String
  tag : Option String
  value : FVal
deriving Repr, DecidableEq

/-- `insert`'s timestamp stamping (`pg/pg.go` lines 129-132): one
`time.Now()` reading written to both `CreatedAt` and `UpdatedAt`. -/
def stampCreatedUpdated (now : Nat) (fields : List RecField) : List RecField :=
  fields.map fun f =>
    if f.name = "CreatedAt" ∨ f.name = "UpdatedAt" then { f with value := .timeV now } else f

/-- `update`'s timestamp stamping (`pg/pg.go` line 181): `UpdatedAt` set
to a fresh `time.Now()` reading. -/
def stampUpdatedAt (now : Nat) (fields : List RecField) : List RecField :=
  fields.map fun f =>
    if f.name = "UpdatedAt" then { f with value := .timeV now } else f

/-- Writing the generated id back onto the entity (`pg/pg.go` line 174). -/
def setIdField (id : Nat) (fields : List RecField) : List RecField :=
  fields.map fun f =>
    if f.name = "ID" then { f with value := .intV id } else f

/-- The column-list loop of `insert` (`pg/pg.go` lines 135-152): a field
without a `db` tag is an EINTERNAL configuration error; the generated-id
marker `id,omitempty` and the non-persisted marker `-` are skipped.
(Apostrophes and backticks of the Go message are elided.) -/
def insertColumns : List RecField → Except AppErr (List String)
  | [] => .ok []
  | f :: rest =>
    match f.tag with
    | none => .error (.app EINTERNAL ("Field " ++ f.name ++ " does not contain a db tag."))
    | some c =>
      if c = "id,omitempty" ∨ c = "-" then insertColumns rest
      else (insertColumns rest).map (fun cs => c :: cs)

/-- The column-list loop of `update` (`pg/pg.go` lines 184-201): as for
`insert`, and additionally the immutable-after-creation columns
`company_id`, `created_at` and `created_by` are skipped. -/
def updateColumns : List RecField → Except AppErr (List String)
  | [] => .ok []
  | f :: rest =>
    match f.tag with
    | none => .error (.app EINTERNAL ("Field " ++ f.name ++ " does not contain a db tag."))
    | some c =>
      if c = "id,omitempty" ∨ c = "-" ∨ c = "company_id" ∨ c = "created_at" ∨ c = "created_by" then
        updateColumns rest
      else (updateColumns rest).map (fun cs => c :: cs)

/-- `strings.Join(columns, ", ")`. -/
def joinComma : List String → String
  | [] => ""
  | [c] => c
  | c :: rest => c ++ ", " ++ joinComma rest

/-- `strings.Join(columns, ", :")`, used as `":" ++ joinColon cols` for
the VALUES clause. -/
def joinColon : List String → String
  | [] => ""
  | [c] => c
  | c :: rest => c ++ ", :" ++ joinColon rest

/-- The SET-clause loop of `update` (`pg/pg.go` lines 204-211): every
column as `col = :col`, comma-separated, a single trailing space after
the last one. -/
def setClause : List String → String
  | [] => ""
  | [c] => c ++ " = :" ++ c ++ " "
  | c :: rest => c ++ " = :" ++ c ++ ", " ++ setClause rest

/-- `insert` (`pg/pg.go` lines 128-177) over an abstract record: stamp
both timestamps with one `time.Now()` reading, derive the column list
(EINTERNAL on a missing tag), build the INSERT text, fail as-is when
`PrepareNamed` fails (`prepErr`); the error of the statement execution
`stmt.Get` is assigned but the function returns nil regardless, with the
returned id left 0 on execution failure (`execFail`), so the result is
`.ok` with the (possibly zero) id written onto the `ID` field. -/
def insertRec (now : Nat) (prepErr : Option String) (execFail : Bool) (newId : Nat)
    (fields : List RecField) (table : String) : Except AppErr (List RecField × String) :=
  let fs := stampCreatedUpdated now fields
  match insertColumns fs with
  | .error e => .error e
  | .ok cols =>
    let q := "INSERT INTO " ++ table ++ " (" ++ joinComma cols ++ ") VALUES (" ++
      ":" ++ joinColon cols ++ ") RETURNING id;"
    match prepErr with
    | some m => .error (.db m)
    | none =>
      let got := if execFail then 0 else newId
      .ok (setIdField got fs, q)

/-- `update` (`pg/pg.go` lines 179-217) over an abstract record: stamp a
fresh update timestamp, derive the column list (EINTERNAL on a missing
tag), build the UPDATE text keyed by `id`, and propagate a `NamedExec`
failure (`execErr`) as-is; on success return the stamped record, the SET
columns and the statement text. -/
def updateRec (now : Nat) (execErr : Option String) (fields : List RecField)
    (table : String) : Except AppErr (List RecField × List String × String) :=
  let fs := stampUpdatedAt now fields
  match updateColumns fs with
  | .error e => .error e
  | .ok cols =>
    let q := "UPDATE " ++ table ++ " SET " ++ setClause cols ++ "WHERE id = :id"
    match execErr with
    | some m => .error (.db m)
    | none => .ok (fs, cols, q)

/-- The effect of executing an UPDATE's SET list on one row, viewed as a
map from column name to value: SET columns take their new value, every
other column keeps the old one. -/
def applySet (cols : List String) (newVals oldRow : String → FVal) (c : String) : FVal :=
  if c ∈ cols then newVals c else oldRow c

/-- The fields of `template.User` with their `db` tags (`user.go`). -/
def userRecFields (u : UserEnt) : List RecField :=
  [ { name := "ID", tag := some "id,omitempty", value := .intV u.row.id },
    { name := "Name", tag := some "name", value := .strV u.row.name },
    { name := "Email", tag := some "email", value := .strV u.row.email },
    { name := "CreatedAt", tag := some "created_at", value := .timeV u.row.createdAt },
    { name := "UpdatedAt", tag := some "updated_at", value := .timeV u.row.updatedAt },
    { name := "Auths", tag := some "-", value := .intV 0 } ]

/-- The fields of `template.Auth` with their `db` tags (the `Auth` struct
declaration). -/
def authRecFields (a : AuthEnt) : List RecField :=
  [ { name := "ID", tag := some "id,omitempty", value := .intV a.id },
    { name := "UserID", tag := some "user_id", value := .intV a.userId },
    { name := "User", tag := some "-", value := .intV 0 },
    { name := "Source", tag := some "source", value := .strV a.source },
    { name := "SourceID", tag := some "source_id", value := .strV a.sourceId },
    { name := "AccessToken", tag := some "access_token", value := .strV a.accessToken },
    { name := "RefreshToken", tag := some "refresh_token", value := .strV a.refreshToken },
    { name := "Expiry", tag := some "expiry", value := .timeV (a.expiry.getD 0) },
    { name := "CreatedAt", tag := some "created_at", value := .timeV a.createdAt },
    { name := "UpdatedAt", tag := some "updated_at", value := .timeV a.updatedAt } ]

/-- Fault switches for the underlying database statements issued by
`CreateAuth`: a `some` message makes the corresponding SELECT or
`PrepareNamed` fail with that driver error; the `Exec` flags make the
corresponding statement execution (`stmt.Get`) fail. -/
structure Faults where
  findAuth : Option String := none
  findUser : Option String := none
  userInsertPrep : Option String := none
  userInsertExec : Bool := false
  authInsertPrep : Option String := none
  authInsertExec : Bool := false
deriving Repr, DecidableEq

/-- No underlying statement fails. -/
def noFaults : Faults := {}

/-- `tx.insert(ctx, auth.User, "users")` (`pg/pg.go` `insert` at the
`template.User` type): read one `time.Now()`, stamp both timestamps on
the entity, return the `PrepareNamed` error as-is when preparation fails;
on execution failure the error is discarded (`return nil`) and the
scanned id stays 0, so the entity's ID is overwritten with 0 and no row
is written; otherwise the row is appended and the generated id written
back. -/
def insertUser (prepErr : Option String) (execFail : Bool) (clock : List Nat) (tx : Tx)
    (u : UserEnt) : Except AppErr Unit × Tx × UserEnt × List Nat :=
  let t := (nextTime clock).1
  let clock' := (nextTime clock).2
  let u' : UserEnt := { u with row := { u.row with createdAt := t, updatedAt := t } }
  match prepErr with
  | some m => (.error (.db m), tx, u', clock')
  | none =>
    if execFail then
      (.ok (), tx, { u' with row := { u'.row with id := 0 } }, clock')
    else
      let newId := tx.pending.nextId
      let row : UserRow :=
        { id := newId, name := u.row.name, email := u.row.email, createdAt := t, updatedAt := t }
      let tx' : Tx :=
        { tx with pending :=
          { tx.pending with users := tx.pending.users ++ [row], nextId := newId + 1 } }
      (.ok (), tx', { u' with row := row }, clock')

/-- `tx.insert(ctx, auth, "auths")` (`pg/pg.go` `insert` at the
`template.Auth` type), with the same shape as `insertUser`. -/
def insertAuth (prepErr : Option String) (execFail : Bool) (clock : List Nat) (tx : Tx)
    (a : AuthEnt) : Except AppErr Unit × Tx × AuthEnt × List Nat :=
  let t := (nextTime clock).1
  let clock' := (nextTime clock).2
  let a' : AuthEnt := { a with createdAt := t, updatedAt := t }
  match prepErr with
  | some m => (.error (.db m), tx, a', clock')
  | none =>
    if execFail then
      (.ok (), tx, { a' with id := 0 }, clock')
    else
      let newId := tx.pending.nextId
      let row : AuthRow :=
        { id := newId, userId := a.userId, source := a.source, sourceId := a.sourceId,
          accessToken := a.accessToken, refreshToken := a.refreshToken, expiry := a.expiry,
          createdAt := t, updatedAt := t }
      let tx' : Tx :=
        { tx with pending :=
          { tx.pending with auths := tx.pending.auths ++ [row], nextId := newId + 1 } }
      (.ok (), tx', { a' with id := newId }, clock')

deriving instance DecidableEq for Except

/-- The outcome of one `CreateAuth` call: the returned error value, the
store visible after the deferred rollback or the commit, and the caller's
`auth` entity after the call's in-place mutations. -/
structure CreateAuthOut where
  result : Except AppErr Unit
  store : Store
  auth : AuthEnt
deriving Repr, DecidableEq

/-- Step 3 of `CreateAuth` (`pg/auth.go` lines 70-76): insert the auth
entity; an insert error is returned unwrapped and the deferred rollback
leaves the initial store visible; otherwise `tx.Commit()` publishes the
transaction-local state. -/
def createAuthFinish (f : Faults) (clock : List Nat) (tx : Tx) (s : Store)
    (a : AuthEnt) : CreateAuthOut :=
  match insertAuth f.authInsertPrep f.authInsertExec clock tx a with
  | (.error e, _, a', _) => { result := .error e, store := s, auth := a' }
  | (.ok _, tx', a', _) => { result := .ok (), store := tx'.pending, auth := a' }

/-- Step 2 of `CreateAuth` (`pg/auth.go` lines 47-68): only when the auth
carries no user id and an attached transient user, resolve the user by
email — adopting a found user, inserting the transient one on ENOTFOUND,
aborting (wrapped) on any other lookup error — and copy the resolved or
created user's id onto the auth. -/
def createAuthResolveUser (f : Faults) (clock : List Nat) (tx : Tx) (s : Store)
    (a : AuthEnt) : CreateAuthOut :=
  if a.userId = 0 then
    match a.user with
    | some u =>
      match findUserByEmail f.findUser tx.pending.users u.row.email with
      | .error e =>
        if ErrorCode e ≠ ENOTFOUND then
          { result := .error (.wrap "find user by email failed" e), store := s, auth := a }
        else
          match insertUser f.userInsertPrep f.userInsertExec clock tx u with
          | (.error e2, _, u', _) =>
            { result := .error (.wrap "cannot create user" e2), store := s,
              auth := { a with user := some u' } }
          | (.ok _, tx', u', clock') =>
            createAuthFinish f clock' tx' s { a with user := some u', userId := u'.row.id }
      | .ok found =>
        createAuthFinish f clock tx s
          { a with user := some { row := found, auths := [] }, userId := found.id }
    | none => createAuthFinish f clock tx s a
  else createAuthFinish f clock tx s a

/-- `CreateAuth` (`pg/auth.go` lines 32-76): begin a transaction with the
fixed `beginTxNow` timestamp, look up the credential by (source,
source_id) — the already-exists branch of the source is empty and falls
through — abort (wrapped) on a non-ENOTFOUND lookup error, then resolve
the user and insert the auth. -/
def createAuth (f : Faults) (dbNow : Nat) (clock : List Nat) (s : Store)
    (a : AuthEnt) : CreateAuthOut :=
  let tx : Tx := { pending := s, now := beginTxNow dbNow }
  match findAuthBySourceID f.findAuth tx.pending.auths a.source a.sourceId with
  | .ok _ => createAuthResolveUser f clock tx s a
  | .error e =>
    if ErrorCode e ≠ ENOTFOUND then
      { result := .error (.wrap "find auth by source id failed" e), store := s, auth := a }
    else createAuthResolveUser f clock tx s a

/-- `Tx.buildInQuery` (`pg/pg.go` lines 115-123), parameterized by the
outcome of the underlying `sqlx.In` expansion and by `tx.Rebind`: when
the expansion fails the error is dropped and `("", nil, nil)` returned;
otherwise the rebound query, the expanded arguments and a nil error. -/
def buildInQuery (inRes : Except String (String × List String))
    (rebind : String → String) : String × List String × Option String :=
  match inRes with
  | .error _ => ("", [], none)
  | .ok (q, args) => (rebind q, args, none)

/-! Concrete fixtures used by the theorems below. -/

/-- A persisted user with id 5. -/
def uFive : UserRow := { id := 5, name := "n", email := "n@example.com", createdAt := 1, updatedAt := 1 }

/-- A persisted credential row for provider github, subject 42, owned by
user 5, holding an old access token. -/
def oldAuthRow : AuthRow :=
  { id := 10, userId := 5, source := "github", sourceId := "42",
    accessToken := "old", refreshToken := "", expiry := none, createdAt := 1, updatedAt := 1 }

/-- A store already holding user 5 and their github/42 credential. -/
def sOne : Store := { users := [uFive], auths := [oldAuthRow], nextId := 11 }

/-- A second CreateAuth request for the same (github, 42) pair with fresh
tokens. -/
def aDup : AuthEnt :=
  { id := 0, userId := 5, user := none, source := "github", sourceId := "42",
    accessToken := "new", refreshToken := "", expiry := none, createdAt := 0, updatedAt := 0 }

/-- The empty store. -/
def sEmpty : Store := { users := [], auths := [], nextId := 1 }

/-- A credential carrying neither an owning-user id nor a transient user. -/
def aBare : AuthEnt :=
  { id := 0, userId := 0, user := none, source := "github", sourceId := "1",
    accessToken := "tok", refreshToken := "", expiry := none, createdAt := 0, updatedAt := 0 }

/-- A transient (not yet persisted) user entity. -/
def uJack : UserEnt :=
  { row := { id := 0, name := "Jack", email := "jack@example.com", createdAt := 0, updatedAt := 0 },
    auths := [] }

/-- A credential with no owning-user id and the transient user attached. -/
def aWithUser : AuthEnt := { aBare with user := some uJack }

/-- Faults making only the credential INSERT's execution fail. -/
def authExecFault : Faults := { authInsertExec := true }

/-- A record with a field that lacks a `db` tag. -/
def badRecFields : List RecField :=
  [ { name := "Nickname", tag := none, value := .strV "x" } ]

/-! Theorems settling the claims. -/

/-- C1: re-invoking CreateAuth with a (provider, provider-subject-id)
pair that already matches a persisted credential must not create a
duplicate row and must update the existing row's tokens.  The code's
already-exists branch is an empty stub (`pg/auth.go` lines 40-45), so the
call succeeds, inserts a second row for (github, 42), and leaves the
first row — old access token included — untouched. -/
theorem c1_duplicate_credential_inserted :
    (createAuth noFaults 0 [9] sOne aDup).result = .ok () ∧
    ((createAuth noFaults 0 [9] sOne aDup).store.auths.filter
      (fun r => r.source == "github" && r.sourceId == "42")).length = 2 ∧
    (createAuth noFaults 0 [9] sOne aDup).store.auths.head? = some oldAuthRow := by
  decide

/-- C2 counterexample: CreateAuth called with a credential carrying
owning-user id 0 and no attached transient user succeeds on the empty
store, yet leaves `credential.UserID` at 0 with no persisted user at all,
so a successful call need not reference a persisted User. -/
theorem c2_success_with_dangling_user_id :
    (createAuth noFaults 0 [5] sEmpty aBare).result = .ok () ∧
    (createAuth noFaults 0 [5] sEmpty aBare).auth.userId = 0 ∧
    (createAuth noFaults 0 [5] sEmpty aBare).store.users = [] := by
  decide

/-- C3: when the credential INSERT's execution fails after the user
INSERT succeeded, `tx.insert` discards the execution error (`pg/pg.go`
lines 171-176 assign `err` and return nil), so CreateAuth reaches Commit
and returns success: the user row written by the failed call is visible
afterwards and no error is surfaced, where the claim requires the error
to be returned and no row to be visible. -/
theorem c3_swallowed_insert_failure_commits :
    (createAuth authExecFault 0 [3, 7] sEmpty aWithUser).result = .ok () ∧
    (createAuth authExecFault 0 [3, 7] sEmpty aWithUser).store.users.length = 1 ∧
    (createAuth authExecFault 0 [3, 7] sEmpty aWithUser).store.auths = [] := by
  decide

/-- C4: the fixed transaction timestamp is captured at `beginTx`
(1000000005 ns truncates to 1000000000 ns) but the two mutations of the
same CreateAuth transaction stamp the ambient `time.Now()` readings 3 and
7 (`pg/pg.go` lines 129 and 181), so mutations inside one transaction
carry different timestamps, and neither equals the transaction's fixed
timestamp. -/
theorem c4_mutations_ignore_tx_timestamp :
    beginTxNow 1000000005 = 1000000000 ∧
    ((createAuth noFaults 1000000005 [3, 7] sEmpty aWithUser).store.users.map
      UserRow.createdAt) = [3] ∧
    (createAuth noFaults 1000000005 [3, 7] sEmpty aWithUser).auth.createdAt = 7 ∧
    (3 : Nat) ≠ 7 ∧ (3 : Nat) ≠ 1000000000 ∧ (7 : Nat) ≠ 1000000000 := by
  decide

/-- C5: the mapper's `insert` does not propagate statement-execution
failures: with every field tagged and preparation succeeding, an insert
whose execution fails still returns success (`pg/pg.go` line 176 returns
nil after `err = stmt.Get`), while a missing `db` tag is an EINTERNAL
error, a preparation failure is propagated as-is, and `update` does
propagate its execution failure. -/
theorem c5_insert_swallows_execution_error :
    (insertRec 5 none true 7 (userRecFields uJack) "users").isOk = true ∧
    (insertRec 5 none false 7 badRecFields "users") =
      .error (.app EINTERNAL "Field Nickname does not contain a db tag.") ∧
    (insertRec 5 (some "prep failed") false 7 (userRecFields uJack) "users") =
      .error (.db "prep failed") ∧
    (updateRec 5 (some "exec failed") (authRecFields aBare) "auths") =
      .error (.db "exec failed") := by
  decide

/-- When the credential-lookup SELECT itself does not fail, step 1 of
`CreateAuth` always falls through to user resolution: a found credential
enters the empty already-exists branch, an absent one yields ENOTFOUND,
which is the tolerated error kind. -/
theorem createAuth_resolve_of_no_fault (f : Faults) (dbNow : Nat) (clock : List Nat)
    (s : Store) (a : AuthEnt) (hfa : f.findAuth = none) :
    createAuth f dbNow clock s a =
      createAuthResolveUser f clock { pending := s, now := beginTxNow dbNow } s a := by
  unfold createAuth findAuthBySourceID
  rw [hfa]
  cases h : s.auths.find? (fun r => r.source == a.source && r.sourceId == a.sourceId) <;>
    simp [h, ErrorCode]

/-- Step 3 never changes the link fields of the auth entity: the final
entity keeps the `UserID` and `User` it entered credential persistence
with. -/
theorem createAuthFinish_preserves_link (f : Faults) (clock : List Nat) (tx : Tx)
    (s : Store) (a : AuthEnt) :
    (createAuthFinish f clock tx s a).auth.userId = a.userId ∧
    (createAuthFinish f clock tx s a).auth.user = a.user := by
  unfold createAuthFinish insertAuth
  cases f.authInsertPrep <;> cases hb : f.authInsertExec <;> simp

/-- When step 3 reports success, the visible user rows are exactly the
transaction-local user rows it was entered with: the credential insert
touches only the auths table. -/
theorem createAuthFinish_users_of_ok (f : Faults) (clock : List Nat) (tx : Tx)
    (s : Store) (a : AuthEnt)
    (h : (createAuthFinish f clock tx s a).result = .ok ()) :
    (createAuthFinish f clock tx s a).store.users = tx.pending.users := by
  unfold createAuthFinish insertAuth at *
  cases hp : f.authInsertPrep <;> cases hb : f.authInsertExec <;> simp_all

/-- C2 amended: when the credential carries owning-user id 0 together
with an attached transient User (the documented reconciliation input) and
no underlying statement fails, a successful CreateAuth populates
`credential.ID` with a non-zero generated identifier and leaves
`credential.UserID` equal to the id of a persisted User row. -/
theorem c2_resolved_user_id_persisted (s : Store) (a : AuthEnt) (u : UserEnt)
    (dbNow : Nat) (clock : List Nat)
    (hn : 1 ≤ s.nextId) (h0 : a.userId = 0) (hu : a.user = some u)
    (hok : (createAuth noFaults dbNow clock s a).result = .ok ()) :
    (createAuth noFaults dbNow clock s a).auth.id ≠ 0 ∧
    ∃ r ∈ (createAuth noFaults dbNow clock s a).store.users,
      r.id = (createAuth noFaults dbNow clock s a).auth.userId := by
  rw [createAuth_resolve_of_no_fault noFaults dbNow clock s a rfl] at hok ⊢
  unfold createAuthResolveUser at hok ⊢
  cases hfind : List.find? (fun x => x.email == u.row.email) s.users with
  | some found =>
    have hmem : found ∈ s.users := List.mem_of_find?_eq_some hfind
    simp [h0, hu, findUserByEmail, noFaults, hfind, createAuthFinish, insertAuth]
    exact ⟨by omega, ⟨found, ⟨hmem, rfl⟩⟩⟩
  | none =>
    simp [h0, hu, findUserByEmail, noFaults, hfind, ErrorCode,
      createAuthFinish, insertUser, insertAuth]
    exact ⟨{ id := s.nextId, name := u.row.name, email := u.row.email,
             createdAt := (nextTime clock).1, updatedAt := (nextTime clock).1 },
           Or.inr rfl, rfl⟩

/-- C6: with the credential carrying owning-user id 0 and an attached
transient User, CreateAuth resolves the user by email: a found user
replaces the transient reference and its id is copied onto the
credential; an ENOTFOUND lookup inserts the transient user as a new row
(visible on success) and copies the generated id; any other lookup error
aborts the call wrapped with "find user by email failed". -/
theorem c6_user_resolution_cases (f : Faults) (dbNow : Nat) (clock : List Nat)
    (s : Store) (a : AuthEnt) (u : UserEnt)
    (hfa : f.findAuth = none) (hup : f.userInsertPrep = none) (hue : f.userInsertExec = false)
    (h0 : a.userId = 0) (hu : a.user = some u) :
    (∀ found, findUserByEmail f.findUser s.users u.row.email = .ok found →
      (createAuth f dbNow clock s a).auth.userId = found.id ∧
      (createAuth f dbNow clock s a).auth.user = some { row := found, auths := [] }) ∧
    (findUserByEmail f.findUser s.users u.row.email =
        .error (.app ENOTFOUND "User not found.") →
      (createAuth f dbNow clock s a).auth.userId = s.nextId ∧
      ((createAuth f dbNow clock s a).result = .ok () →
        ∃ r ∈ (createAuth f dbNow clock s a).store.users,
          r.id = s.nextId ∧ r.name = u.row.name ∧ r.email = u.row.email)) ∧
    (∀ e, findUserByEmail f.findUser s.users u.row.email = .error e →
      ErrorCode e ≠ ENOTFOUND →
      createAuth f dbNow clock s a =
        { result := .error (.wrap "find user by email failed" e), store := s, auth := a }) := by
  rw [createAuth_resolve_of_no_fault f dbNow clock s a hfa]
  unfold createAuthResolveUser
  refine ⟨?_, ?_, ?_⟩
  · intro found hfe
    simp only [h0, hu, if_pos rfl, hfe]
    exact ⟨(createAuthFinish_preserves_link _ _ _ _ _).1,
           (createAuthFinish_preserves_link _ _ _ _ _).2⟩
  · intro hfe
    simp only [h0, hu, if_pos rfl, hfe, ErrorCode, ENOTFOUND, ne_eq, not_true_eq_false,
      if_false, reduceIte, insertUser, hup, hue]
    simp only [Bool.false_eq_true, if_false, reduceIte]
    constructor
    · exact (createAuthFinish_preserves_link _ _ _ _ _).1
    · intro hres
      rw [createAuthFinish_users_of_ok _ _ _ _ _ hres]
      exact ⟨⟨s.nextId, u.row.name, u.row.email, (nextTime clock).1, (nextTime clock).1⟩,
             by simp, rfl, rfl, rfl⟩
  · intro e hfe hcode
    simp [h0, hu, hfe, hcode]

/-- C7: each identity-store lookup — user by id, user by email,
credential by (provider, provider-subject-id) — fails with an error of
kind ENOTFOUND when no row matches, and returns a matching record when
one exists. -/
theorem c7_lookup_notfound_semantics (s : Store) (id : Nat) (email src sid : String) :
    ((∀ u ∈ s.users, u.id ≠ id) →
      ∃ e, findUserByID s id = .error e ∧ ErrorCode e = ENOTFOUND) ∧
    ((∃ u ∈ s.users, u.id = id) →
      ∃ ent, findUserByID s id = .ok ent ∧ ent.row ∈ s.users ∧ ent.row.id = id ∧
        ent.auths = s.auths.filter (fun r => r.userId == ent.row.id)) ∧
    ((∀ u ∈ s.users, u.email ≠ email) →
      ∃ e, findUserByEmail none s.users email = .error e ∧ ErrorCode e = ENOTFOUND) ∧
    ((∃ u ∈ s.users, u.email = email) →
      ∃ w, findUserByEmail none s.users email = .ok w ∧ w ∈ s.users ∧ w.email = email) ∧
    ((∀ r ∈ s.auths, ¬(r.source = src ∧ r.sourceId = sid)) →
      ∃ e, findAuthBySourceID none s.auths src sid = .error e ∧ ErrorCode e = ENOTFOUND) ∧
    ((∃ r ∈ s.auths, r.source = src ∧ r.sourceId = sid) →
      ∃ w, findAuthBySourceID none s.auths src sid = .ok w ∧ w ∈ s.auths ∧
        w.source = src ∧ w.sourceId = sid) := by
  refine ⟨?_, ?_, ?_, ?_, ?_, ?_⟩
  · intro hno
    have hfind : s.users.find? (fun u => u.id == id) = none := by
      rw [List.find?_eq_none]
      intro x hx
      simpa using hno x hx
    exact ⟨.app ENOTFOUND "User not found.", by simp [findUserByID, hfind], rfl⟩
  · intro hex
    have hsome : (s.users.find? (fun u => u.id == id)).isSome := by
      rw [List.find?_isSome]
      obtain ⟨u, hu, he⟩ := hex
      exact ⟨u, hu, by simpa using he⟩
    obtain ⟨u, hfind⟩ := Option.isSome_iff_exists.mp hsome
    refine ⟨attachUserAuths s.auths u, by simp [findUserByID, hfind],
      List.mem_of_find?_eq_some hfind, by simpa using List.find?_some hfind, rfl⟩
  · intro hno
    have hfind : s.users.find? (fun u => u.email == email) = none := by
      rw [List.find?_eq_none]
      intro x hx
      simpa using hno x hx
    exact ⟨.app ENOTFOUND "User not found.", by simp [findUserByEmail, hfind], rfl⟩
  · intro hex
    have hsome : (s.users.find? (fun u => u.email == email)).isSome := by
      rw [List.find?_isSome]
      obtain ⟨u, hu, he⟩ := hex
      exact ⟨u, hu, by simpa using he⟩
    obtain ⟨u, hfind⟩ := Option.isSome_iff_exists.mp hsome
    exact ⟨u, by simp [findUserByEmail, hfind],
      List.mem_of_find?_eq_some hfind, by simpa using List.find?_some hfind⟩
  · intro hno
    have hfind : s.auths.find? (fun r => r.source == src && r.sourceId == sid) = none := by
      rw [List.find?_eq_none]
      intro x hx
      simpa using hno x hx
    exact ⟨.app ENOTFOUND "Auth not found.", by simp [findAuthBySourceID, hfind], rfl⟩
  · intro hex
    have hsome : (s.auths.find? (fun r => r.source == src && r.sourceId == sid)).isSome := by
      rw [List.find?_isSome]
      obtain ⟨r, hr, h1, h2⟩ := hex
      exact ⟨r, hr, by simp [h1, h2]⟩
    obtain ⟨r, hfind⟩ := Option.isSome_iff_exists.mp hsome
    have hp := List.find?_some hfind
    simp only [Bool.and_eq_true, beq_iff_eq] at hp
    exact ⟨r, by simp [findAuthBySourceID, hfind],
      List.mem_of_find?_eq_some hfind, hp.1, hp.2⟩

/-- C8: the error-kind to status mapping is total: the six defined kinds
map to 409, 400, 404, 501, 401 and 500 — pairwise distinct — and every
unrecognized kind maps to 500. -/
theorem c8_status_mapping_total_distinct :
    ErrorStatusCode ECONFLICT = 409 ∧ ErrorStatusCode EINVALID = 400 ∧
    ErrorStatusCode ENOTFOUND = 404 ∧ ErrorStatusCode ENOTIMPLEMENTED = 501 ∧
    ErrorStatusCode EUNAUTHORIZED = 401 ∧ ErrorStatusCode EINTERNAL = 500 ∧
    [ErrorStatusCode ECONFLICT, ErrorStatusCode EINVALID, ErrorStatusCode ENOTFOUND,
      ErrorStatusCode ENOTIMPLEMENTED, ErrorStatusCode EUNAUTHORIZED,
      ErrorStatusCode EINTERNAL].Nodup ∧
    (∀ c : String,
      c ∉ [ECONFLICT, EINVALID, ENOTFOUND, ENOTIMPLEMENTED, EUNAUTHORIZED, EINTERNAL] →
      ErrorStatusCode c = 500) := by
  refine ⟨by decide, by decide, by decide, by decide, by decide, by decide, by decide, ?_⟩
  intro c hc
  simp only [List.mem_cons, List.not_mem_nil, or_false, not_or] at hc
  obtain ⟨h1, h2, h3, h4, h5, h6⟩ := hc
  have b1 : (ECONFLICT == c) = false := beq_eq_false_iff_ne.mpr (Ne.symm h1)
  have b2 : (EINVALID == c) = false := beq_eq_false_iff_ne.mpr (Ne.symm h2)
  have b3 : (ENOTFOUND == c) = false := beq_eq_false_iff_ne.mpr (Ne.symm h3)
  have b4 : (ENOTIMPLEMENTED == c) = false := beq_eq_false_iff_ne.mpr (Ne.symm h4)
  have b5 : (EUNAUTHORIZED == c) = false := beq_eq_false_iff_ne.mpr (Ne.symm h5)
  have b6 : (EINTERNAL == c) = false := beq_eq_false_iff_ne.mpr (Ne.symm h6)
  simp [ErrorStatusCode, codes, List.find?, b1, b2, b3, b4, b5, b6]

/-- C10: `Tx.buildInQuery` never reports an error: its error component is
nil on every input, and when the underlying IN-clause expansion fails the
failure is discarded and the empty query with nil arguments returned. -/
theorem c10_buildInQuery_discards_error (inRes : Except String (String × List String))
    (rebind : String → String) :
    (buildInQuery inRes rebind).2.2 = none ∧
    (∀ e, inRes = .error e → buildInQuery inRes rebind = ("", [], none)) := by
  cases inRes with
  | error e => exact ⟨rfl, fun _ _ => rfl⟩
  | ok p => exact ⟨rfl, fun e h => by cases h⟩

/-- Any column list produced by `update`'s column loop omits the
generated-id marker, the non-persisted marker and the three
immutable-after-creation column names. -/
theorem updateColumns_excludes (fs : List RecField) (cols : List String)
    (h : updateColumns fs = .ok cols) :
    ∀ c ∈ cols, c ≠ "id,omitempty" ∧ c ≠ "-" ∧ c ≠ "company_id" ∧
      c ≠ "created_at" ∧ c ≠ "created_by" := by
  induction fs generalizing cols with
  | nil =>
    simp only [updateColumns, Except.ok.injEq] at h
    subst h
    simp
  | cons f rest ih =>
    unfold updateColumns at h
    split at h
    · simp at h
    · rename_i c heq
      split at h
      · exact ih cols h
      · rename_i hc
        cases hrest : updateColumns rest with
        | error e =>
          rw [hrest] at h
          simp [Except.map] at h
        | ok cs =>
          rw [hrest] at h
          simp only [Except.map, Except.ok.injEq] at h
          subst h
          push_neg at hc
          intro x hx
          rcases List.mem_cons.mp hx with hxc | hxs
          · subst hxc
            exact ⟨hc.1, hc.2.1, hc.2.2.1, hc.2.2.2.1, hc.2.2.2.2⟩
          · exact ih cs hrest x hxs

/-- C9: when `update` succeeds, its SET list contains none of the
generated-id, non-persisted or immutable-after-creation markers, so
applying the statement leaves `company_id`, `created_at` and `created_by`
unchanged on the row; the statement is keyed by `id`; and the record
passed in carries the fresh update timestamp. -/
theorem c9_update_excludes_immutable (now : Nat) (rec : List RecField) (table : String)
    (stamped : List RecField) (cols : List String) (q : String)
    (h : updateRec now none rec table = .ok (stamped, cols, q)) :
    (∀ c ∈ cols, c ≠ "id,omitempty" ∧ c ≠ "-" ∧ c ≠ "company_id" ∧
      c ≠ "created_at" ∧ c ≠ "created_by") ∧
    (∀ newVals oldRow : String → FVal,
      ∀ c ∈ (["company_id", "created_at", "created_by"] : List String),
        applySet cols newVals oldRow c = oldRow c) ∧
    (∃ p, q = p ++ "WHERE id = :id") ∧
    (∀ fld ∈ stamped, fld.name = "UpdatedAt" → fld.value = .timeV now) := by
  simp only [updateRec] at h
  split at h
  · simp at h
  · rename_i cs heq
    simp only [Except.ok.injEq, Prod.mk.injEq] at h
    obtain ⟨hs, hc, hq⟩ := h
    subst hs
    subst hc
    subst hq
    have excl := updateColumns_excludes _ _ heq
    refine ⟨excl, ?_, ⟨_, rfl⟩, ?_⟩
    · intro nv old c hcmem
      have hnotin : c ∉ cs := by
        intro hin
        have h5 := excl c hin
        simp only [List.mem_cons, List.not_mem_nil, or_false] at hcmem
        rcases hcmem with h | h | h
        · exact h5.2.2.1 h
        · exact h5.2.2.2.1 h
        · exact h5.2.2.2.2 h
      simp [applySet, hnotin]
    · intro fld hmem hname
      simp only [stampUpdatedAt, List.mem_map] at hmem
      obtain ⟨f0, hf0, hfld⟩ := hmem
      by_cases hn : f0.name = "UpdatedAt"
      · rw [← hfld]
        simp [hn]
      · rw [← hfld] at hname
        simp [hn] at hname

/-- The SET columns `update` derives for the `template.Auth` record. -/
def updCols : List String :=
  ["user_id", "source", "source_id", "access_token", "refresh_token", "expiry", "updated_at"]

/-- The UPDATE statement `update` builds for the `template.Auth` record. -/
def updQuery : String :=
  "UPDATE auths SET user_id = :user_id, source = :source, source_id = :source_id, " ++
  "access_token = :access_token, refresh_token = :refresh_token, expiry = :expiry, " ++
  "updated_at = :updated_at WHERE id = :id"

/-- Witness for C2's amended theorem at a concrete input: the empty store
and a credential carrying the transient user. -/
theorem c2_resolved_user_id_persisted_witness :
    (1 ≤ sEmpty.nextId ∧ aWithUser.userId = 0 ∧ aWithUser.user = some uJack ∧
      (createAuth noFaults 0 [3, 7] sEmpty aWithUser).result = .ok ()) ∧
    ((createAuth noFaults 0 [3, 7] sEmpty aWithUser).auth.id ≠ 0 ∧
      ∃ r ∈ (createAuth noFaults 0 [3, 7] sEmpty aWithUser).store.users,
        r.id = (createAuth noFaults 0 [3, 7] sEmpty aWithUser).auth.userId) :=
  ⟨⟨by decide, by decide, by decide, by decide⟩,
   c2_resolved_user_id_persisted sEmpty aWithUser uJack 0 [3, 7]
     (by decide) (by decide) (by decide) (by decide)⟩

/-- Witness for C6 at a concrete input: the new-account branch on the
empty store. -/
theorem c6_user_resolution_cases_witness :
    (noFaults.findAuth = none ∧ aWithUser.userId = 0 ∧ aWithUser.user = some uJack ∧
      findUserByEmail noFaults.findUser sEmpty.users uJack.row.email =
        .error (.app ENOTFOUND "User not found.")) ∧
    ((createAuth noFaults 0 [3, 7] sEmpty aWithUser).auth.userId = sEmpty.nextId ∧
      ((createAuth noFaults 0 [3, 7] sEmpty aWithUser).result = .ok () →
        ∃ r ∈ (createAuth noFaults 0 [3, 7] sEmpty aWithUser).store.users,
          r.id = sEmpty.nextId ∧ r.name = uJack.row.name ∧ r.email = uJack.row.email)) :=
  ⟨⟨rfl, by decide, by decide, by decide⟩,
   (c6_user_resolution_cases noFaults 0 [3, 7] sEmpty aWithUser uJack
     rfl rfl rfl (by decide) (by decide)).2.1 (by decide)⟩

/-- Witness for C7 at a concrete input: the store holding only user 5,
probed for the absent id 999999. -/
theorem c7_lookup_notfound_semantics_witness :
    (∀ u ∈ sOne.users, u.id ≠ 999999) ∧
    (∃ e, findUserByID sOne 999999 = .error e ∧ ErrorCode e = ENOTFOUND) :=
  ⟨by decide, (c7_lookup_notfound_semantics sOne 999999 "" "" "").1 (by decide)⟩

/-- Witness for C8's default case at a concrete unrecognized kind. -/
theorem c8_status_mapping_total_distinct_witness :
    ("bogus" : String) ∉
      [ECONFLICT, EINVALID, ENOTFOUND, ENOTIMPLEMENTED, EUNAUTHORIZED, EINTERNAL] ∧
    ErrorStatusCode "bogus" = 500 :=
  ⟨by decide, c8_status_mapping_total_distinct.2.2.2.2.2.2.2 "bogus" (by decide)⟩

set_option maxRecDepth 4096 in
/-- Witness for C9 at a concrete input: updating the `template.Auth`
record on the `auths` table. -/
theorem c9_update_excludes_immutable_witness :
    updateRec 5 none (authRecFields aBare) "auths" =
      .ok (stampUpdatedAt 5 (authRecFields aBare), updCols, updQuery) ∧
    ((∀ c ∈ updCols, c ≠ "id,omitempty" ∧ c ≠ "-" ∧ c ≠ "company_id" ∧
        c ≠ "created_at" ∧ c ≠ "created_by") ∧
      (∀ newVals oldRow : String → FVal,
        ∀ c ∈ (["company_id", "created_at", "created_by"] : List String),
          applySet updCols newVals oldRow c = oldRow c) ∧
      (∃ p, updQuery = p ++ "WHERE id = :id") ∧
      (∀ fld ∈ stampUpdatedAt 5 (authRecFields aBare), fld.name = "UpdatedAt" →
        fld.value = .timeV 5)) :=
  ⟨by decide,
   c9_update_excludes_immutable 5 (authRecFields aBare) "auths"
     (stampUpdatedAt 5 (authRecFields aBare)) updCols updQuery (by decide)⟩

/-- Witness for C10 at a concrete failing expansion. -/
theorem c10_buildInQuery_discards_error_witness :
    ((Except.error "expand failed" : Except String (String × List String)) =
      .error "expand failed") ∧
    buildInQuery (.error "expand failed") (fun q => q) = ("", [], none) :=
  ⟨rfl, (c10_buildInQuery_discards_error (.error "expand failed") (fun q => q)).2
    "expand failed" rfl⟩

end Template
